import Mathlib

/-!
# Verification of the eRPC per-endpoint engine excerpt

Shallow embedding of the session-management API (`rpc_sm_api.cc`), the
session-management helpers (`rpc_sm_helpers.cc`) and the inline `Rpc` methods
of `rpc.h`.  Machine pointers are modelled by natural-number identifiers,
the hugepage allocator by an explicit allocation log, and the C++ objects by
Lean structures.  Components of the repository that are outside the excerpt
(`msg_buffer.h`, `session.h`, `pkthdr.h`, `rpc_sm_retry.cc`) are modelled
from the specification where a claim needs them; each such definition says so
in its doc comment.
-/

set_option maxHeartbeats 1000000

namespace ERpc

/-- Size in bytes of one packet header.  Modelled from the spec: `pkthdr.h` is
not in the excerpt; the spec fixes the packet header at 16 bytes. -/
def pkthdr_size : Nat := 16

/-- Number of bits of the shared secret of a session.  Modelled from the spec:
the constant `kSecretBits` is declared outside the excerpt; the spec fixes a
48-bit secret. -/
def kSecretBits : Nat := 48

/-- Compile-time constants of the `Rpc<TTr>` instantiation that the excerpt
reads but whose values are defined outside it (`common.h`, `session.h`,
transport class).  They are threaded as parameters. -/
structure Params where
  kMaxPhyPorts : Nat
  kMaxHostnameLen : Nat
  kMaxSessionsPerThread : Nat
  kSessionReqWindow : Nat
  kMaxDataPerPkt : Nat
  kMaxClassSize : Nat

/-- Constant `Rpc<TTr>::kMaxMsgSize` from `rpc.h`: the largest allocator class size
minus one packet header per packet the class can span. -/
def kMaxMsgSize (kMaxClassSize mdp : Nat) : Nat :=
  kMaxClassSize - (kMaxClassSize / mdp) * pkthdr_size

/-- The hugepage allocator, modelled as a deterministic oracle: the `n`-th
allocation attempt succeeds iff `avail n` is true and then hands out the fresh
identifier `n`.  `live` is the set of currently allocated buffers and
`req_sizes` the log of byte counts requested from the allocator. -/
structure HugeAlloc where
  avail : Nat → Bool
  next_id : Nat
  live : Finset Nat
  req_sizes : List Nat

/-- Method `HugeAlloc::alloc`: the allocation either returns a fresh buffer id or
fails (out of memory).  Either way the requested size is logged. -/
def HugeAlloc.alloc (h : HugeAlloc) (sz : Nat) : Option Nat × HugeAlloc :=
  if h.avail h.next_id then
    (some h.next_id,
     { avail := h.avail, next_id := h.next_id + 1,
       live := insert h.next_id h.live, req_sizes := h.req_sizes ++ [sz] })
  else
    (none,
     { avail := h.avail, next_id := h.next_id,
       live := h.live, req_sizes := h.req_sizes ++ [sz] })

/-- Allocator well-formedness: every live buffer id was handed out before
`next_id`.  Holds for every allocator reachable from an empty one. -/
def alloc_wf (h : HugeAlloc) : Prop := ∀ id ∈ h.live, id < h.next_id

/-- A `MsgBuffer` (`msg_buffer.h` is outside the excerpt; the fields are
modelled from the data model in spec §3 and the uses in `rpc.h`): `buf` is the
application data pointer (`none` = invalid), `buffer_buf` the underlying
allocator buffer (`some` iff the buffer is dynamic, cf. the comments in
`rpc.h` on `is_dynamic`), `data` the payload bytes. -/
structure MsgBuffer where
  buf : Option Nat
  buffer_buf : Option Nat
  data_size : Nat
  max_data_size : Nat
  num_pkts : Nat
  max_num_pkts : Nat
  magic_set : Bool
  data : Nat → Nat

/-- Predicate `MsgBuffer::is_dynamic`: the buffer came from the hugepage allocator. -/
def MsgBuffer.is_dynamic (m : MsgBuffer) : Bool := m.buffer_buf.isSome

/-- The invalid `MsgBuffer` returned by `alloc_msg_buffer` on out-of-memory
(`msg_buffer.buf = nullptr`, other fields unspecified). -/
def mk_invalid_msgbuffer : MsgBuffer :=
  { buf := none, buffer_buf := none, data_size := 0, max_data_size := 0,
    num_pkts := 0, max_num_pkts := 0, magic_set := false, data := fun _ => 0 }

/-- Method `Rpc::free_msg_buffer`: return a dynamic buffer to the allocator. -/
def free_msg_buffer (h : HugeAlloc) (m : MsgBuffer) : HugeAlloc :=
  match m.buffer_buf with
  | some id => { h with live := h.live.erase id }
  | none => h

/-- The packet-count computation shared by `Rpc::alloc_msg_buffer` and
`Rpc::resize_msg_buffer` in `rpc.h`: one packet for sizes up to
`TTr::kMaxDataPerPkt` (division avoided), otherwise the rounded-up packet
count. -/
def num_pkts_for (mdp sz : Nat) : Nat :=
  if sz ≤ mdp then 1 else (sz + (mdp - 1)) / mdp

/-- Method `Rpc::alloc_msg_buffer` from `rpc.h`: compute the packet count, request
`max_data_size + max_num_pkts * sizeof(pkthdr_t)` bytes, return an invalid
`MsgBuffer` on out-of-memory, otherwise a dynamic buffer with the magic set
(the `MsgBuffer` constructor is modelled from the spec §4.3: `size =
max_size`, `packet_count = p`, magic set). -/
def alloc_msg_buffer (mdp : Nat) (h : HugeAlloc) (max_data_size : Nat) :
    MsgBuffer × HugeAlloc :=
  let max_num_pkts := num_pkts_for mdp max_data_size
  let r := h.alloc (max_data_size + max_num_pkts * pkthdr_size)
  match r.1 with
  | none => (mk_invalid_msgbuffer, r.2)
  | some id =>
    ({ buf := some id, buffer_buf := some id, data_size := max_data_size,
       max_data_size := max_data_size, num_pkts := max_num_pkts,
       max_num_pkts := max_num_pkts, magic_set := true, data := fun _ => 0 },
     r.2)

/-- Method `Rpc::resize_msg_buffer` from `rpc.h`: recompute the packet count with the
same avoid-division pattern and shrink the buffer (`MsgBuffer::resize` is
modelled from the spec §4.3: it lowers `size` and the packet count without
touching memory). -/
def resize_msg_buffer (mdp : Nat) (m : MsgBuffer) (new_data_size : Nat) :
    MsgBuffer :=
  let new_num_pkts := num_pkts_for mdp new_data_size
  { m with data_size := new_data_size, num_pkts := new_num_pkts }

/-- C4: for every `max_size` up to `kMaxMsgSize`, `alloc_msg_buffer` uses one
packet when `max_size ≤ kMaxDataPerPkt` (zero included, and exactly
`kMaxDataPerPkt` gives one packet, not two) and the ceiling count otherwise,
requests exactly `max_size + p * pkthdr_size` bytes, returns a null-`buf`
handle on out-of-memory, and otherwise a buffer of size `max_size` with `p`
packets and the magic set. -/
theorem alloc_msg_buffer_spec (kcs mdp : Nat) (h : HugeAlloc)
    (max_data_size : Nat) (hmdp : 0 < mdp)
    (hmax : max_data_size ≤ kMaxMsgSize kcs mdp) :
    (max_data_size ≤ mdp → num_pkts_for mdp max_data_size = 1) ∧
    (mdp < max_data_size →
      max_data_size ≤ num_pkts_for mdp max_data_size * mdp ∧
      (num_pkts_for mdp max_data_size - 1) * mdp < max_data_size) ∧
    (alloc_msg_buffer mdp h max_data_size).2.req_sizes
      = h.req_sizes ++ [max_data_size + num_pkts_for mdp max_data_size * pkthdr_size] ∧
    (h.avail h.next_id = false →
      (alloc_msg_buffer mdp h max_data_size).1.buf = none) ∧
    (h.avail h.next_id = true →
      (alloc_msg_buffer mdp h max_data_size).1.buf ≠ none ∧
      (alloc_msg_buffer mdp h max_data_size).1.data_size = max_data_size ∧
      (alloc_msg_buffer mdp h max_data_size).1.num_pkts
        = num_pkts_for mdp max_data_size ∧
      (alloc_msg_buffer mdp h max_data_size).1.magic_set = true) := by
  refine ⟨fun hle => by simp [num_pkts_for, hle], fun hlt => ?_, ?_, ?_, ?_⟩
  · have hq : num_pkts_for mdp max_data_size
        = (max_data_size + (mdp - 1)) / mdp := by
      simp only [num_pkts_for, if_neg (by omega : ¬ max_data_size ≤ mdp)]
    rw [hq, Nat.sub_mul, one_mul, Nat.mul_comm]
    have h1 := Nat.div_add_mod (max_data_size + (mdp - 1)) mdp
    have h2 := Nat.mod_lt (max_data_size + (mdp - 1)) hmdp
    generalize hQ : (max_data_size + (mdp - 1)) / mdp = q at h1 ⊢
    generalize hR : (max_data_size + (mdp - 1)) % mdp = r at h1 h2
    generalize hT : mdp * q = t at h1 ⊢
    omega
  · cases hb : h.avail h.next_id <;>
      simp [alloc_msg_buffer, HugeAlloc.alloc, hb]
  · intro hav
    simp only [alloc_msg_buffer, HugeAlloc.alloc, hav]
    rfl
  · intro hav
    simp only [alloc_msg_buffer, HugeAlloc.alloc, hav]
    exact ⟨by simp, rfl, rfl, rfl⟩

/-- Witness for C4 at a concrete input. -/
theorem alloc_msg_buffer_spec_witness :
    (100 ≤ 1024 → num_pkts_for 1024 100 = 1) ∧
    (1024 < 100 →
      100 ≤ num_pkts_for 1024 100 * 1024 ∧
      (num_pkts_for 1024 100 - 1) * 1024 < 100) ∧
    (alloc_msg_buffer 1024
        { avail := fun _ => true, next_id := 0, live := ∅, req_sizes := [] }
        100).2.req_sizes
      = [] ++ [100 + num_pkts_for 1024 100 * pkthdr_size] ∧
    ((true : Bool) = false →
      (alloc_msg_buffer 1024
        { avail := fun _ => true, next_id := 0, live := ∅, req_sizes := [] }
        100).1.buf = none) ∧
    ((true : Bool) = true →
      (alloc_msg_buffer 1024
        { avail := fun _ => true, next_id := 0, live := ∅, req_sizes := [] }
        100).1.buf ≠ none ∧
      (alloc_msg_buffer 1024
        { avail := fun _ => true, next_id := 0, live := ∅, req_sizes := [] }
        100).1.data_size = 100 ∧
      (alloc_msg_buffer 1024
        { avail := fun _ => true, next_id := 0, live := ∅, req_sizes := [] }
        100).1.num_pkts = num_pkts_for 1024 100 ∧
      (alloc_msg_buffer 1024
        { avail := fun _ => true, next_id := 0, live := ∅, req_sizes := [] }
        100).1.magic_set = true) :=
  alloc_msg_buffer_spec 8192 1024
    { avail := fun _ => true, next_id := 0, live := ∅, req_sizes := [] }
    100 (by decide) (by decide)

/-- C5: `resize_msg_buffer` on a valid buffer with a smaller size is
idempotent, changes only the size and packet-count fields, preserves every
payload byte below the new size, and leaves the maximum data size (and every
other field) untouched. -/
theorem resize_msg_buffer_spec (mdp : Nat) (m : MsgBuffer) (n : Nat)
    (hbuf : m.buf ≠ none) (hmagic : m.magic_set = true)
    (hlt : n < m.max_data_size) :
    resize_msg_buffer mdp (resize_msg_buffer mdp m n) n
      = resize_msg_buffer mdp m n ∧
    (resize_msg_buffer mdp m n).data = m.data ∧
    (∀ i, i < n → (resize_msg_buffer mdp m n).data i = m.data i) ∧
    (resize_msg_buffer mdp m n).max_data_size = m.max_data_size ∧
    (resize_msg_buffer mdp m n).buf = m.buf ∧
    (resize_msg_buffer mdp m n).buffer_buf = m.buffer_buf ∧
    (resize_msg_buffer mdp m n).max_num_pkts = m.max_num_pkts ∧
    (resize_msg_buffer mdp m n).magic_set = m.magic_set ∧
    (resize_msg_buffer mdp m n).data_size = n ∧
    (resize_msg_buffer mdp m n).num_pkts = num_pkts_for mdp n :=
  ⟨rfl, rfl, fun _ _ => rfl, rfl, rfl, rfl, rfl, rfl, rfl, rfl⟩

/-- A concrete valid `MsgBuffer` used by witnesses. -/
def sample_msgbuf : MsgBuffer :=
  { buf := some 0, buffer_buf := some 0, data_size := 9, max_data_size := 9,
    num_pkts := 2, max_num_pkts := 2, magic_set := true, data := fun i => i }

/-- Witness for C5 at a concrete input. -/
theorem resize_msg_buffer_spec_witness :
    resize_msg_buffer 8 (resize_msg_buffer 8 sample_msgbuf 3) 3
      = resize_msg_buffer 8 sample_msgbuf 3 ∧
    (resize_msg_buffer 8 sample_msgbuf 3).data = sample_msgbuf.data ∧
    (∀ i, i < 3 →
      (resize_msg_buffer 8 sample_msgbuf 3).data i = sample_msgbuf.data i) ∧
    (resize_msg_buffer 8 sample_msgbuf 3).max_data_size
      = sample_msgbuf.max_data_size ∧
    (resize_msg_buffer 8 sample_msgbuf 3).buf = sample_msgbuf.buf ∧
    (resize_msg_buffer 8 sample_msgbuf 3).buffer_buf
      = sample_msgbuf.buffer_buf ∧
    (resize_msg_buffer 8 sample_msgbuf 3).max_num_pkts
      = sample_msgbuf.max_num_pkts ∧
    (resize_msg_buffer 8 sample_msgbuf 3).magic_set = sample_msgbuf.magic_set ∧
    (resize_msg_buffer 8 sample_msgbuf 3).data_size = 3 ∧
    (resize_msg_buffer 8 sample_msgbuf 3).num_pkts = num_pkts_for 8 3 :=
  resize_msg_buffer_spec 8 sample_msgbuf 3 (by simp [sample_msgbuf])
    (by simp [sample_msgbuf]) (by simp [sample_msgbuf])

/-- Enum `Session::Role` (`session.h` is outside the excerpt; modelled from the
data model of the spec: role is `Client` or `Server`). -/
inductive Role where
  | kClient : Role
  | kServer : Role
deriving DecidableEq

/-- Enum `SessionState` (modelled from the session state machine of the spec). -/
inductive SessionState where
  | kConnectInProgress : SessionState
  | kConnected : SessionState
  | kDisconnectInProgress : SessionState
  | kDisconnected : SessionState
deriving DecidableEq

/-- Struct `SessionEndpoint` (modelled from the spec §3 and the field uses in
`rpc_sm_api.cc`): the fields `session_num` and `routing_info` are `Option`s
because `create_session` leaves the copies on the server side unfilled. -/
structure SessionEndpoint where
  transport_type : Nat
  hostname : String
  phy_port : Nat
  app_tid : Nat
  session_num : Option Nat
  secret : Nat
  routing_info : Option Nat

/-- A session slot (modelled from the spec §3 and the field uses in `rpc.h`
and `rpc_sm_helpers.cc`). -/
structure SSlot where
  index : Nat
  tx_msgbuf : Option MsgBuffer
  rx_msgbuf : MsgBuffer
  pre_resp_msgbuf : MsgBuffer

/-- A session (modelled from the spec §3 and the field uses in the excerpt). -/
structure Session where
  role : Role
  state : SessionState
  client : SessionEndpoint
  server : SessionEndpoint
  local_session_num : Nat
  sslot_arr : List SSlot
  sslot_free_vec : List Nat

/-- Predicate `Session::is_client`. -/
def Session.is_client (s : Session) : Bool := s.role = Role.kClient

/-- The engine-owned state of one `Rpc` endpoint that the excerpted functions
read or write.  `mgmt_retry_queue` holds local session numbers (the C++ code
holds pointers), and the two `reqs_sent` counters log the management packets
handed to the mailbox by `send_connect_req_one` / `send_disconnect_req_one`
(those live in `rpc_sm_retry.cc`, outside the excerpt; modelled from the
spec: each call sends exactly one `ConnectReq` / `DisconnectReq`). -/
structure RpcState where
  hostname : String
  app_tid : Nat
  phy_port : Nat
  transport_type : Nat
  local_routing_info : Nat
  rand_val : Nat
  huge_alloc : HugeAlloc
  session_vec : List (Option Session)
  mgmt_retry_queue : List Nat
  connect_reqs_sent : Nat
  disconnect_reqs_sent : Nat

/-- Method `Rpc::destroy_session` from `rpc_sm_api.cc`.  The C++ function takes the
session by pointer and mutates it in place; the model takes the pointed-to
value (`none` models a null pointer) and returns the result flag, the updated
session object and the updated engine state.  `mgmt_retry_queue_add` and
`send_disconnect_req_one` live in `rpc_sm_retry.cc`, outside the excerpt;
modelled from the spec: the former appends the session to the
management-retry queue, the latter sends one `DisconnectReq`. -/
def destroy_session (in_creator : Bool) (st : RpcState)
    (session : Option Session) : Bool × Option Session × RpcState :=
  if in_creator = false then (false, session, st)
  else
    match session with
    | none => (false, none, st)
    | some s =>
      if s.is_client = false then (false, some s, st)
      else
        match s.state with
        | SessionState.kConnectInProgress => (false, some s, st)
        | SessionState.kConnected =>
          (true,
           some { s with state := SessionState.kDisconnectInProgress },
           { st with
             mgmt_retry_queue := st.mgmt_retry_queue ++ [s.local_session_num],
             disconnect_reqs_sent := st.disconnect_reqs_sent + 1 })
        | SessionState.kDisconnectInProgress => (false, some s, st)
        | SessionState.kDisconnected => (false, some s, st)

/-- C1: `destroy_session` returns true iff the caller is the creator thread
and the session is a non-null client session in state `kConnected`; in that
case it moves the session to `kDisconnectInProgress`, appends it to the
management-retry queue and sends one `DisconnectReq`; in every other case it
returns false and leaves both the session and the engine state unchanged. -/
theorem destroy_session_spec (ic : Bool) (st : RpcState)
    (so : Option Session) :
    ((destroy_session ic st so).1 = true ↔
      ic = true ∧ ∃ s, so = some s ∧ s.role = Role.kClient ∧
        s.state = SessionState.kConnected) ∧
    (∀ s, so = some s → ic = true → s.role = Role.kClient →
      s.state = SessionState.kConnected →
      destroy_session ic st so =
        (true,
         some { s with state := SessionState.kDisconnectInProgress },
         { st with
           mgmt_retry_queue := st.mgmt_retry_queue ++ [s.local_session_num],
           disconnect_reqs_sent := st.disconnect_reqs_sent + 1 })) ∧
    ((destroy_session ic st so).1 = false →
      (destroy_session ic st so).2.1 = so ∧
      (destroy_session ic st so).2.2 = st) := by
  cases ic with
  | false =>
    refine ⟨by simp [destroy_session], ?_, ?_⟩
    · intro s hs hic
      exact absurd hic (by simp)
    · intro _
      simp [destroy_session]
  | true =>
    cases so with
    | none =>
      refine ⟨by simp [destroy_session], ?_, ?_⟩
      · intro s hs
        exact absurd hs (by simp)
      · intro _
        simp [destroy_session]
    | some s =>
      by_cases hrole : s.role = Role.kClient
      · cases hstate : s.state <;>
          refine ⟨?_, ?_, ?_⟩ <;>
          simp_all [destroy_session, Session.is_client]
      · refine ⟨?_, ?_, ?_⟩ <;>
          simp_all [destroy_session, Session.is_client]

/-- A concrete connected client session used by witnesses. -/
def sample_session : Session :=
  { role := Role.kClient, state := SessionState.kConnected,
    client := { transport_type := 0, hostname := "a", phy_port := 0,
                app_tid := 0, session_num := some 0, secret := 7,
                routing_info := some 1 },
    server := { transport_type := 0, hostname := "b", phy_port := 0,
                app_tid := 1, session_num := none, secret := 7,
                routing_info := none },
    local_session_num := 0, sslot_arr := [], sslot_free_vec := [] }

/-- A concrete engine state used by witnesses. -/
def sample_state : RpcState :=
  { hostname := "a", app_tid := 0, phy_port := 0, transport_type := 0,
    local_routing_info := 5, rand_val := 3,
    huge_alloc := { avail := fun _ => true, next_id := 0, live := ∅,
                    req_sizes := [] },
    session_vec := [some sample_session], mgmt_retry_queue := [],
    connect_reqs_sent := 0, disconnect_reqs_sent := 0 }

/-- A concrete parameter block used by witnesses. -/
def sample_params : Params :=
  { kMaxPhyPorts := 2, kMaxHostnameLen := 16, kMaxSessionsPerThread := 8,
    kSessionReqWindow := 2, kMaxDataPerPkt := 8, kMaxClassSize := 1024 }

/-- Witness for C1 at a concrete input. -/
theorem destroy_session_spec_witness :
    ((destroy_session true sample_state (some sample_session)).1 = true ↔
      true = true ∧ ∃ s, some sample_session = some s ∧
        s.role = Role.kClient ∧ s.state = SessionState.kConnected) ∧
    (∀ s, some sample_session = some s → true = true →
      s.role = Role.kClient → s.state = SessionState.kConnected →
      destroy_session true sample_state (some sample_session) =
        (true,
         some { s with state := SessionState.kDisconnectInProgress },
         { sample_state with
           mgmt_retry_queue :=
             sample_state.mgmt_retry_queue ++ [s.local_session_num],
           disconnect_reqs_sent := sample_state.disconnect_reqs_sent + 1 })) ∧
    ((destroy_session true sample_state (some sample_session)).1 = false →
      (destroy_session true sample_state (some sample_session)).2.1
        = some sample_session ∧
      (destroy_session true sample_state (some sample_session)).2.2
        = sample_state) :=
  destroy_session_spec true sample_state (some sample_session)

/-- The allocator-buffer identifiers underlying a list of `MsgBuffer`s. -/
def mb_ids : List MsgBuffer → Finset Nat
  | [] => ∅
  | b :: l =>
    match b.buffer_buf with
    | some i => insert i (mb_ids l)
    | none => mb_ids l

/-- The prealloc loop of `create_session` (`rpc_sm_api.cc` lines 82-100):
allocate one single-packet response buffer per request-window slot; if an
allocation fails, free the buffers already allocated and fail. -/
def prealloc_bufs (mdp : Nat) (h : HugeAlloc) (acc : List MsgBuffer) :
    Nat → Option (List MsgBuffer) × HugeAlloc
  | 0 => (some acc, h)
  | Nat.succ n =>
    let r := alloc_msg_buffer mdp h mdp
    if r.1.buf = none then
      (none, acc.foldl free_msg_buffer r.2)
    else
      prealloc_bufs mdp r.2 (acc ++ [r.1]) n

/-- The duplicate-session scan of `create_session` (`rpc_sm_api.cc` lines
51-68): an existing non-null session whose server endpoint matches the
requested remote hostname and remote app thread id. -/
def dup_check (rhost : String) (rem_app_tid : Nat) (os : Option Session) :
    Bool :=
  match os with
  | some es =>
    (es.server.hostname == rhost) && (es.server.app_tid == rem_app_tid)
  | none => false

/-- The session object built by a successful `create_session`
(`rpc_sm_api.cc` lines 77-125): client role, `kConnectInProgress`, both
endpoint descriptors filled as in the source (the remote session number and
routing info are left unfilled), the local session number equal to the
current `session_vec.size()`, and the prealloc response buffers attached to
the request-window slots. -/
def mk_client_session (p : Params) (st : RpcState) (rhost : String)
    (rem_app_tid rem_phy_port : Nat) (bufs : List MsgBuffer) : Session :=
  { role := Role.kClient, state := SessionState.kConnectInProgress,
    client := { transport_type := st.transport_type, hostname := st.hostname,
                phy_port := st.phy_port, app_tid := st.app_tid,
                session_num := some st.session_vec.length,
                secret := st.rand_val % 2 ^ kSecretBits,
                routing_info := some st.local_routing_info },
    server := { transport_type := st.transport_type, hostname := rhost,
                phy_port := rem_phy_port, app_tid := rem_app_tid,
                session_num := none,
                secret := st.rand_val % 2 ^ kSecretBits,
                routing_info := none },
    local_session_num := st.session_vec.length,
    sslot_arr := List.zipWith
      (fun i b => { index := i, tx_msgbuf := none,
                    rx_msgbuf := mk_invalid_msgbuffer,
                    pre_resp_msgbuf := b })
      (List.range p.kSessionReqWindow) bufs,
    sslot_free_vec := List.range p.kSessionReqWindow }

/-- Method `Rpc::create_session` from `rpc_sm_api.cc`.  The argument checks, the
duplicate-session scan, the session-limit check, the prealloc loop, the
endpoint initialisation and the final bookkeeping follow the source order.
`mgmt_retry_queue_add` and `send_connect_req_one` live in `rpc_sm_retry.cc`,
outside the excerpt; modelled from the spec: the former appends the session
to the management-retry queue, the latter sends one `ConnectReq`. -/
def create_session (p : Params) (in_creator : Bool) (st : RpcState)
    (rem_hostname : Option String) (rem_app_tid rem_phy_port : Nat) :
    Option Session × RpcState :=
  if in_creator = false then (none, st)
  else if p.kMaxPhyPorts ≤ rem_phy_port then (none, st)
  else
    match rem_hostname with
    | none => (none, st)
    | some rhost =>
      if p.kMaxHostnameLen < rhost.length then (none, st)
      else if rhost = st.hostname ∧ rem_app_tid = st.app_tid then (none, st)
      else if st.session_vec.any (dup_check rhost rem_app_tid) then (none, st)
      else if p.kMaxSessionsPerThread ≤ st.session_vec.length then (none, st)
      else
        match (prealloc_bufs p.kMaxDataPerPkt st.huge_alloc []
                 p.kSessionReqWindow).1 with
        | none =>
          (none,
           { st with huge_alloc :=
               (prealloc_bufs p.kMaxDataPerPkt st.huge_alloc []
                  p.kSessionReqWindow).2 })
        | some bufs =>
          (some (mk_client_session p st rhost rem_app_tid rem_phy_port bufs),
           { st with
             session_vec := st.session_vec
               ++ [some (mk_client_session p st rhost rem_app_tid rem_phy_port
                     bufs)],
             mgmt_retry_queue :=
               st.mgmt_retry_queue ++ [st.session_vec.length],
             connect_reqs_sent := st.connect_reqs_sent + 1,
             huge_alloc := (prealloc_bufs p.kMaxDataPerPkt st.huge_alloc []
               p.kSessionReqWindow).2 })

/-- Unfolding of `alloc_msg_buffer` when the allocator has memory. -/
theorem alloc_msg_buffer_avail (mdp sz : Nat) (h : HugeAlloc)
    (hb : h.avail h.next_id = true) :
    alloc_msg_buffer mdp h sz =
      ({ buf := some h.next_id, buffer_buf := some h.next_id,
         data_size := sz, max_data_size := sz,
         num_pkts := num_pkts_for mdp sz, max_num_pkts := num_pkts_for mdp sz,
         magic_set := true, data := fun _ => 0 },
       { avail := h.avail, next_id := h.next_id + 1,
         live := insert h.next_id h.live,
         req_sizes := h.req_sizes ++ [sz + num_pkts_for mdp sz * pkthdr_size] }) := by
  simp [alloc_msg_buffer, HugeAlloc.alloc, hb]

/-- Unfolding of `alloc_msg_buffer` when the allocator is out of memory. -/
theorem alloc_msg_buffer_noavail (mdp sz : Nat) (h : HugeAlloc)
    (hb : h.avail h.next_id = false) :
    alloc_msg_buffer mdp h sz =
      (mk_invalid_msgbuffer,
       { avail := h.avail, next_id := h.next_id, live := h.live,
         req_sizes := h.req_sizes ++ [sz + num_pkts_for mdp sz * pkthdr_size] }) := by
  simp [alloc_msg_buffer, HugeAlloc.alloc, hb]

/-- Folding `free_msg_buffer` over a buffer list removes exactly the
underlying allocator ids from the live set. -/
theorem foldl_free_live : ∀ (bl : List MsgBuffer) (h : HugeAlloc),
    (bl.foldl free_msg_buffer h).live = h.live \ mb_ids bl := by
  intro bl
  induction bl with
  | nil => intro h; simp [mb_ids]
  | cons b l ih =>
    intro h
    rw [List.foldl_cons, ih]
    cases hbb : b.buffer_buf with
    | none => simp [free_msg_buffer, mb_ids, hbb]
    | some i =>
      simp only [free_msg_buffer, hbb, mb_ids]
      ext x
      simp only [Finset.mem_sdiff, Finset.mem_erase, Finset.mem_insert]
      tauto

/-- Function `mb_ids` distributes over list append. -/
theorem mb_ids_append : ∀ (l₁ l₂ : List MsgBuffer),
    mb_ids (l₁ ++ l₂) = mb_ids l₁ ∪ mb_ids l₂ := by
  intro l₁ l₂
  induction l₁ with
  | nil => simp [mb_ids]
  | cons b l ih =>
    cases hbb : b.buffer_buf with
    | none => simp [mb_ids, hbb, ih]
    | some i => simp [mb_ids, hbb, ih, Finset.insert_union]

/-- If the prealloc loop of `create_session` fails, the rollback frees every
buffer it allocated: the final live set is the starting one minus the ids of
the accumulator. -/
theorem prealloc_bufs_none_live (mdp : Nat) :
    ∀ (n : Nat) (h : HugeAlloc) (acc : List MsgBuffer), alloc_wf h →
      (prealloc_bufs mdp h acc n).1 = none →
      (prealloc_bufs mdp h acc n).2.live = h.live \ mb_ids acc := by
  intro n
  induction n with
  | zero =>
    intro h acc _ hnone
    simp [prealloc_bufs] at hnone
  | succ n ih =>
    intro h acc hwf hnone
    by_cases hb : h.avail h.next_id = true
    · have heq := alloc_msg_buffer_avail mdp mdp h hb
      simp only [prealloc_bufs, heq] at hnone ⊢
      rw [if_neg (by simp)] at hnone ⊢
      have hwf2 : alloc_wf { avail := h.avail,
                             next_id := h.next_id + 1,
                             live := insert h.next_id h.live,
                             req_sizes := h.req_sizes
                               ++ [mdp + num_pkts_for mdp mdp * pkthdr_size] } := by
        intro id hid
        show id < h.next_id + 1
        replace hid : id ∈ insert h.next_id h.live := hid
        rcases Finset.mem_insert.mp hid with hid | hid
        · omega
        · exact Nat.lt_trans (hwf id hid) (Nat.lt_succ_self _)
      rw [ih _ _ hwf2 hnone, mb_ids_append]
      ext x
      simp only [mb_ids, Finset.mem_sdiff, Finset.mem_insert, Finset.mem_union,
        Finset.not_mem_empty, or_false]
      constructor
      · rintro ⟨hx1, hx2⟩
        rcases hx1 with hx1 | hx1
        · exact absurd (Or.inr hx1) hx2
        · exact ⟨hx1, fun hc => hx2 (Or.inl hc)⟩
      · rintro ⟨hx1, hx2⟩
        have hne : x ≠ h.next_id := by
          have := hwf x hx1
          omega
        exact ⟨Or.inr hx1, by tauto⟩
    · have hb2 : h.avail h.next_id = false := by
        cases hav : h.avail h.next_id
        · rfl
        · exact absurd hav hb
      have heq := alloc_msg_buffer_noavail mdp mdp h hb2
      simp only [prealloc_bufs, heq] at hnone ⊢
      rw [if_pos (show mk_invalid_msgbuffer.buf = none from rfl)] at hnone ⊢
      rw [foldl_free_live]

/-- Exhaustive case analysis of `create_session`: either it fails before the
prealloc loop and leaves the state untouched, or it fails inside the prealloc
loop and changes only the allocator, or every validation passed and it
succeeds. -/
theorem create_session_cases (p : Params) (ic : Bool) (st : RpcState)
    (rh : Option String) (rat rpp : Nat) :
    create_session p ic st rh rat rpp = (none, st) ∨
    ((prealloc_bufs p.kMaxDataPerPkt st.huge_alloc []
        p.kSessionReqWindow).1 = none ∧
      create_session p ic st rh rat rpp =
        (none,
         { st with huge_alloc := (prealloc_bufs p.kMaxDataPerPkt st.huge_alloc
             [] p.kSessionReqWindow).2 })) ∨
    (∃ rhost bufs,
      rh = some rhost ∧ ic = true ∧
      rpp < p.kMaxPhyPorts ∧
      rhost.length ≤ p.kMaxHostnameLen ∧
      ¬(rhost = st.hostname ∧ rat = st.app_tid) ∧
      st.session_vec.any (dup_check rhost rat) = false ∧
      st.session_vec.length < p.kMaxSessionsPerThread ∧
      (prealloc_bufs p.kMaxDataPerPkt st.huge_alloc []
        p.kSessionReqWindow).1 = some bufs ∧
      create_session p ic st rh rat rpp =
        (some (mk_client_session p st rhost rat rpp bufs),
         { st with
           session_vec := st.session_vec
             ++ [some (mk_client_session p st rhost rat rpp bufs)],
           mgmt_retry_queue := st.mgmt_retry_queue ++ [st.session_vec.length],
           connect_reqs_sent := st.connect_reqs_sent + 1,
           huge_alloc := (prealloc_bufs p.kMaxDataPerPkt st.huge_alloc []
             p.kSessionReqWindow).2 })) := by
  rcases rh with _ | rhost
  · simp only [create_session]
    split
    · exact Or.inl rfl
    · split
      · exact Or.inl rfl
      · exact Or.inl rfl
  · simp only [create_session]
    split
    · exact Or.inl rfl
    rename_i hic
    split
    · exact Or.inl rfl
    rename_i hport
    split
    · exact Or.inl rfl
    rename_i hlen
    split
    · exact Or.inl rfl
    rename_i hself
    split
    · exact Or.inl rfl
    rename_i hany
    split
    · exact Or.inl rfl
    rename_i hlim
    split
    · rename_i hpre
      exact Or.inr (Or.inl ⟨hpre, rfl⟩)
    · rename_i bufs hpre
      refine Or.inr (Or.inr ⟨rhost, bufs, rfl, ?_, ?_, ?_, hself, ?_, ?_,
        hpre, rfl⟩)
      · simpa using hic
      · omega
      · omega
      · simpa using hany
      · omega

/-- C2: every failing `create_session` call returns null, leaves the session
vector unchanged and leaves the set of live allocator buffers unchanged (the
prealloc buffers allocated before an out-of-memory failure are freed again by
the rollback); and each of the listed failure causes does make the call fail:
non-creator caller, remote port out of range, null hostname, over-long
hostname, self-connection, duplicate session, session limit, out-of-memory in
the prealloc loop. -/
theorem create_session_failure_spec (p : Params) (ic : Bool) (st : RpcState)
    (rh : Option String) (rat rpp : Nat) (hwf : alloc_wf st.huge_alloc) :
    (ic = false → (create_session p ic st rh rat rpp).1 = none) ∧
    (p.kMaxPhyPorts ≤ rpp → (create_session p ic st rh rat rpp).1 = none) ∧
    (rh = none → (create_session p ic st rh rat rpp).1 = none) ∧
    (∀ s, rh = some s → p.kMaxHostnameLen < s.length →
      (create_session p ic st rh rat rpp).1 = none) ∧
    (∀ s, rh = some s → s = st.hostname → rat = st.app_tid →
      (create_session p ic st rh rat rpp).1 = none) ∧
    (∀ s, rh = some s →
      (∃ os ∈ st.session_vec, ∃ es, os = some es ∧
        es.server.hostname = s ∧ es.server.app_tid = rat) →
      (create_session p ic st rh rat rpp).1 = none) ∧
    (p.kMaxSessionsPerThread ≤ st.session_vec.length →
      (create_session p ic st rh rat rpp).1 = none) ∧
    ((prealloc_bufs p.kMaxDataPerPkt st.huge_alloc []
        p.kSessionReqWindow).1 = none →
      (create_session p ic st rh rat rpp).1 = none) ∧
    ((create_session p ic st rh rat rpp).1 = none →
      (create_session p ic st rh rat rpp).2.session_vec = st.session_vec ∧
      (create_session p ic st rh rat rpp).2.huge_alloc.live
        = st.huge_alloc.live) := by
  rcases create_session_cases p ic st rh rat rpp with heq | ⟨hpre0, heq⟩ |
    ⟨rhost, bufs, hrh, hic, hport, hlen, hself, hany, hlim, hpre, heq⟩
  · rw [heq]
    exact ⟨fun _ => rfl, fun _ => rfl, fun _ => rfl, fun _ _ _ => rfl,
      fun _ _ _ _ => rfl, fun _ _ _ => rfl, fun _ => rfl, fun _ => rfl,
      fun _ => ⟨rfl, rfl⟩⟩
  · rw [heq]
    refine ⟨fun _ => rfl, fun _ => rfl, fun _ => rfl, fun _ _ _ => rfl,
      fun _ _ _ _ => rfl, fun _ _ _ => rfl, fun _ => rfl, fun _ => rfl,
      fun _ => ⟨rfl, ?_⟩⟩
    have hl := prealloc_bufs_none_live p.kMaxDataPerPkt p.kSessionReqWindow
      st.huge_alloc [] hwf hpre0
    simpa [mb_ids] using hl
  · refine ⟨?_, ?_, ?_, ?_, ?_, ?_, ?_, ?_, ?_⟩
    · intro h
      rw [h] at hic
      simp at hic
    · intro h
      omega
    · intro h
      rw [h] at hrh
      simp at hrh
    · intro s hs h
      have he : s = rhost := by
        have h2 := hs.symm.trans hrh
        injection h2
      rw [he] at h
      omega
    · intro s hs h1 h2
      have he : s = rhost := by
        have h3 := hs.symm.trans hrh
        injection h3
      exact absurd ⟨by rw [← he]; exact h1, h2⟩ hself
    · intro s hs hdup
      have he : s = rhost := by
        have h3 := hs.symm.trans hrh
        injection h3
      have hany2 : st.session_vec.any (dup_check rhost rat) = true := by
        rcases hdup with ⟨os, hos, es, rfl, h1, h2⟩
        refine List.any_eq_true.mpr ⟨some es, hos, ?_⟩
        simp [dup_check, h1, h2, he.symm]
      rw [hany2] at hany
      simp at hany
    · intro h
      omega
    · intro h
      rw [h] at hpre
      simp at hpre
    · intro h
      rw [heq] at h
      simp at h

/-- Witness for C2 at a concrete failing input (non-creator caller). -/
theorem create_session_failure_spec_witness :
    ((false : Bool) = false →
      (create_session sample_params false sample_state (some "b") 1 0).1
        = none) ∧
    (sample_params.kMaxPhyPorts ≤ 0 →
      (create_session sample_params false sample_state (some "b") 1 0).1
        = none) ∧
    ((some "b" : Option String) = none →
      (create_session sample_params false sample_state (some "b") 1 0).1
        = none) ∧
    (∀ s, (some "b" : Option String) = some s →
      sample_params.kMaxHostnameLen < s.length →
      (create_session sample_params false sample_state (some "b") 1 0).1
        = none) ∧
    (∀ s, (some "b" : Option String) = some s → s = sample_state.hostname →
      1 = sample_state.app_tid →
      (create_session sample_params false sample_state (some "b") 1 0).1
        = none) ∧
    (∀ s, (some "b" : Option String) = some s →
      (∃ os ∈ sample_state.session_vec, ∃ es, os = some es ∧
        es.server.hostname = s ∧ es.server.app_tid = 1) →
      (create_session sample_params false sample_state (some "b") 1 0).1
        = none) ∧
    (sample_params.kMaxSessionsPerThread ≤ sample_state.session_vec.length →
      (create_session sample_params false sample_state (some "b") 1 0).1
        = none) ∧
    ((prealloc_bufs sample_params.kMaxDataPerPkt sample_state.huge_alloc []
        sample_params.kSessionReqWindow).1 = none →
      (create_session sample_params false sample_state (some "b") 1 0).1
        = none) ∧
    ((create_session sample_params false sample_state (some "b") 1 0).1
        = none →
      (create_session sample_params false sample_state
        (some "b") 1 0).2.session_vec = sample_state.session_vec ∧
      (create_session sample_params false sample_state
        (some "b") 1 0).2.huge_alloc.live
        = sample_state.huge_alloc.live) :=
  create_session_failure_spec sample_params false sample_state (some "b") 1 0
    (by intro id hid; simp [sample_state] at hid)

/-- C3: every successful `create_session` call returns a client session in
state `kConnectInProgress` whose local session number and client session
number equal the session-vector length before the append, whose 48-bit secret
is stored identically in the client and server endpoint descriptors, whose
client descriptor records the local routing info; the session is appended to
the session vector and to the management-retry queue, and exactly one
`ConnectReq` is sent. -/
theorem create_session_success_spec (p : Params) (ic : Bool) (st : RpcState)
    (rh : Option String) (rat rpp : Nat) (s : Session)
    (hs : (create_session p ic st rh rat rpp).1 = some s) :
    s.role = Role.kClient ∧
    s.state = SessionState.kConnectInProgress ∧
    s.local_session_num = st.session_vec.length ∧
    s.client.session_num = some st.session_vec.length ∧
    s.server.secret = s.client.secret ∧
    s.client.secret < 2 ^ kSecretBits ∧
    s.client.routing_info = some st.local_routing_info ∧
    (create_session p ic st rh rat rpp).2.session_vec
      = st.session_vec ++ [some s] ∧
    (create_session p ic st rh rat rpp).2.mgmt_retry_queue
      = st.mgmt_retry_queue ++ [st.session_vec.length] ∧
    (create_session p ic st rh rat rpp).2.connect_reqs_sent
      = st.connect_reqs_sent + 1 := by
  rcases create_session_cases p ic st rh rat rpp with heq | ⟨hpre0, heq⟩ |
    ⟨rhost, bufs, hrh, hic, hport, hlen, hself, hany, hlim, hpre, heq⟩
  · rw [heq] at hs
    simp at hs
  · rw [heq] at hs
    simp at hs
  · rw [heq] at hs
    replace hs : some (mk_client_session p st rhost rat rpp bufs) = some s :=
      hs
    injection hs with hs
    subst hs
    rw [heq]
    refine ⟨rfl, rfl, rfl, rfl, rfl, ?_, rfl, rfl, rfl, rfl⟩
    exact Nat.mod_lt _ (by positivity)

/-- Witness for C3 at a concrete successful input. -/
theorem create_session_success_spec_witness :
    ((create_session sample_params true sample_state (some "c") 1 0).1.getD
        sample_session).role = Role.kClient ∧
    ((create_session sample_params true sample_state (some "c") 1 0).1.getD
        sample_session).state = SessionState.kConnectInProgress ∧
    ((create_session sample_params true sample_state (some "c") 1 0).1.getD
        sample_session).local_session_num
      = sample_state.session_vec.length ∧
    ((create_session sample_params true sample_state (some "c") 1 0).1.getD
        sample_session).client.session_num
      = some sample_state.session_vec.length ∧
    ((create_session sample_params true sample_state (some "c") 1 0).1.getD
        sample_session).server.secret
      = ((create_session sample_params true sample_state
          (some "c") 1 0).1.getD sample_session).client.secret ∧
    ((create_session sample_params true sample_state (some "c") 1 0).1.getD
        sample_session).client.secret < 2 ^ kSecretBits ∧
    ((create_session sample_params true sample_state (some "c") 1 0).1.getD
        sample_session).client.routing_info
      = some sample_state.local_routing_info ∧
    (create_session sample_params true sample_state
        (some "c") 1 0).2.session_vec
      = sample_state.session_vec
        ++ [some ((create_session sample_params true sample_state
              (some "c") 1 0).1.getD sample_session)] ∧
    (create_session sample_params true sample_state
        (some "c") 1 0).2.mgmt_retry_queue
      = sample_state.mgmt_retry_queue
        ++ [sample_state.session_vec.length] ∧
    (create_session sample_params true sample_state
        (some "c") 1 0).2.connect_reqs_sent
      = sample_state.connect_reqs_sent + 1 :=
  create_session_success_spec sample_params true sample_state (some "c") 1 0
    ((create_session sample_params true sample_state (some "c") 1 0).1.getD
      sample_session) rfl

/-- The datapath TX work queue together with the per-session
`in_datapath_tx_work_queue` flags (`rpc.h`): sessions are identified by their
local session number, so the flag becomes a map from session id to `Bool`. -/
structure TxQueueState where
  queue : List Nat
  in_datapath_tx_work_queue : Nat → Bool

/-- The TX-work-queue invariant: the queue has no duplicates and a session is
in the queue iff its membership flag is set. -/
def txq_invariant (s : TxQueueState) : Prop :=
  s.queue.Nodup ∧
  ∀ sid, sid ∈ s.queue ↔ s.in_datapath_tx_work_queue sid = true

/-- Method `Rpc::upsert_datapath_tx_work_queue` from `rpc.h` lines 421-427: append
the session and set its flag unless the flag is already set. -/
def upsert_datapath_tx_work_queue (s : TxQueueState) (sid : Nat) :
    TxQueueState :=
  if s.in_datapath_tx_work_queue sid then s
  else
    { queue := s.queue ++ [sid],
      in_datapath_tx_work_queue :=
        fun x => if x = sid then true else s.in_datapath_tx_work_queue x }

/-- C6: `upsert_datapath_tx_work_queue` preserves the queue invariant (no
session is in the TX work queue more than once, and a session is in the queue
iff its flag is true); it appends the session and sets the flag when the flag
was false, and does nothing when the flag was true. -/
theorem upsert_datapath_tx_work_queue_spec (s : TxQueueState) (sid : Nat)
    (hinv : txq_invariant s) :
    txq_invariant (upsert_datapath_tx_work_queue s sid) ∧
    (s.in_datapath_tx_work_queue sid = false →
      (upsert_datapath_tx_work_queue s sid).queue = s.queue ++ [sid] ∧
      (upsert_datapath_tx_work_queue s sid).in_datapath_tx_work_queue sid
        = true) ∧
    (s.in_datapath_tx_work_queue sid = true →
      upsert_datapath_tx_work_queue s sid = s) := by
  obtain ⟨hnd, hmem⟩ := hinv
  cases hf : s.in_datapath_tx_work_queue sid with
  | true =>
    refine ⟨?_, fun hc => by simp [hf] at hc,
      fun _ => by simp [upsert_datapath_tx_work_queue, hf]⟩
    have he : upsert_datapath_tx_work_queue s sid = s := by
      simp [upsert_datapath_tx_work_queue, hf]
    rw [he]
    exact ⟨hnd, hmem⟩
  | false =>
    have hnotmem : sid ∉ s.queue := by
      intro hc
      have h2 := (hmem sid).mp hc
      rw [hf] at h2
      simp at h2
    refine ⟨⟨?_, ?_⟩, fun _ => ⟨by simp [upsert_datapath_tx_work_queue, hf],
      by simp [upsert_datapath_tx_work_queue, hf]⟩,
      fun hc => by simp [hf] at hc⟩
    · have he : (upsert_datapath_tx_work_queue s sid).queue
          = s.queue ++ [sid] := by
        simp [upsert_datapath_tx_work_queue, hf]
      rw [he, List.nodup_append]
      exact ⟨hnd, List.nodup_singleton sid, by simpa using hnotmem⟩
    · intro x
      by_cases hx : x = sid
      · subst hx
        simp [upsert_datapath_tx_work_queue, hf]
      · simp only [upsert_datapath_tx_work_queue, hf, Bool.false_eq_true,
          if_false, List.mem_append, List.mem_singleton, hx, or_false,
          if_neg hx]
        exact hmem x

/-- Witness for C6 at a concrete input. -/
theorem upsert_datapath_tx_work_queue_spec_witness :
    txq_invariant (upsert_datapath_tx_work_queue
      { queue := [], in_datapath_tx_work_queue := fun _ => false } 4) ∧
    (({ queue := [], in_datapath_tx_work_queue := fun _ => false }
        : TxQueueState).in_datapath_tx_work_queue 4 = false →
      (upsert_datapath_tx_work_queue
        { queue := [], in_datapath_tx_work_queue := fun _ => false } 4).queue
        = ({ queue := [], in_datapath_tx_work_queue := fun _ => false }
            : TxQueueState).queue ++ [4] ∧
      (upsert_datapath_tx_work_queue
        { queue := [], in_datapath_tx_work_queue := fun _ => false }
        4).in_datapath_tx_work_queue 4 = true) ∧
    (({ queue := [], in_datapath_tx_work_queue := fun _ => false }
        : TxQueueState).in_datapath_tx_work_queue 4 = true →
      upsert_datapath_tx_work_queue
        { queue := [], in_datapath_tx_work_queue := fun _ => false } 4
        = { queue := [], in_datapath_tx_work_queue := fun _ => false }) :=
  upsert_datapath_tx_work_queue_spec
    { queue := [], in_datapath_tx_work_queue := fun _ => false } 4
    ⟨List.nodup_nil, fun sid => by simp⟩

/-- One phase of the event loop, recorded in an instrumentation trace. -/
inductive EvPhase where
  | sm : EvPhase
  | retry : EvPhase
  | rx : EvPhase
  | tx : EvPhase
deriving DecidableEq

/-- Method `Rpc::run_event_loop_one` from `rpc.h` lines 338-354, parametrised over
the engine state type `σ` and the four callees, whose bodies are outside the
excerpt (`handle_session_management`, `mgmt_retry`, `process_completions`,
`process_datapath_tx_work_queue`); `sm_pkt_list_size` and
`mgmt_retry_queue_size` read the sizes the two guards test.  Each executed
phase is appended to an instrumentation trace. -/
def run_event_loop_one {σ : Type}
    (sm_pkt_list_size mgmt_retry_queue_size : σ → Nat)
    (handle_session_management mgmt_retry process_completions
      process_datapath_tx_work_queue : σ → σ)
    (c : σ) (trace : List EvPhase) : σ × List EvPhase :=
  let s1 : σ × List EvPhase :=
    if 0 < sm_pkt_list_size c then
      (handle_session_management c, trace ++ [EvPhase.sm])
    else (c, trace)
  let s2 : σ × List EvPhase :=
    if 0 < mgmt_retry_queue_size s1.1 then
      (mgmt_retry s1.1, s1.2 ++ [EvPhase.retry])
    else s1
  let s3 : σ × List EvPhase := (process_completions s2.1, s2.2 ++ [EvPhase.rx])
  (process_datapath_tx_work_queue s3.1, s3.2 ++ [EvPhase.tx])

/-- C7: one invocation of `run_event_loop_one` appends to the trace a
subsequence of `[sm, retry, rx, tx]` — so each phase runs at most once and in
this fixed order — where the session-management phase runs iff the mailbox is
non-empty, the retry phase runs iff the management-retry queue is non-empty
(as seen after the session-management phase), and the RX and TX phases always
run; the resulting state is the corresponding composition. -/
theorem run_event_loop_one_spec {σ : Type} (smSize rqSize : σ → Nat)
    (f1 f2 f3 f4 : σ → σ) (c : σ) (trace : List EvPhase) :
    ∃ t,
      (run_event_loop_one smSize rqSize f1 f2 f3 f4 c trace).2
        = trace ++ t ∧
      List.Sublist t [EvPhase.sm, EvPhase.retry, EvPhase.rx, EvPhase.tx] ∧
      (EvPhase.sm ∈ t ↔ 0 < smSize c) ∧
      (EvPhase.retry ∈ t ↔
        0 < rqSize (if 0 < smSize c then f1 c else c)) ∧
      EvPhase.rx ∈ t ∧ EvPhase.tx ∈ t ∧
      (run_event_loop_one smSize rqSize f1 f2 f3 f4 c trace).1
        = f4 (f3 (if 0 < rqSize (if 0 < smSize c then f1 c else c) then
                    f2 (if 0 < smSize c then f1 c else c)
                  else if 0 < smSize c then f1 c else c)) := by
  by_cases h1 : 0 < smSize c
  · by_cases h2 : 0 < rqSize (f1 c)
    · refine ⟨[EvPhase.sm, EvPhase.retry, EvPhase.rx, EvPhase.tx], ?_, ?_,
        ?_, ?_, ?_, ?_, ?_⟩ <;>
        simp [run_event_loop_one, h1, h2, List.Sublist.refl]
    · refine ⟨[EvPhase.sm, EvPhase.rx, EvPhase.tx], ?_, ?_, ?_, ?_, ?_, ?_,
        ?_⟩ <;>
        simp [run_event_loop_one, h1, h2]
  · by_cases h2 : 0 < rqSize c
    · refine ⟨[EvPhase.retry, EvPhase.rx, EvPhase.tx], ?_, ?_, ?_, ?_, ?_,
        ?_, ?_⟩ <;>
        simp [run_event_loop_one, h1, h2]
    · refine ⟨[EvPhase.rx, EvPhase.tx], ?_, ?_, ?_, ?_, ?_, ?_, ?_⟩ <;>
        simp [run_event_loop_one, h1, h2]

/-- Witness for C7 at a concrete input. -/
theorem run_event_loop_one_spec_witness :
    ∃ t,
      (run_event_loop_one (fun n => n) (fun n => n) (fun n => n) (fun n => n)
        (fun n => n) (fun n => n) 1 []).2 = [] ++ t ∧
      List.Sublist t [EvPhase.sm, EvPhase.retry, EvPhase.rx, EvPhase.tx] ∧
      (EvPhase.sm ∈ t ↔ 0 < 1) ∧
      (EvPhase.retry ∈ t ↔ 0 < (if 0 < 1 then 1 else 1)) ∧
      EvPhase.rx ∈ t ∧ EvPhase.tx ∈ t ∧
      (run_event_loop_one (fun n => n) (fun n => n) (fun n => n) (fun n => n)
        (fun n => n) (fun n => n) 1 []).1
        = (if 0 < (if 0 < 1 then 1 else 1) then (if 0 < 1 then 1 else 1)
           else if 0 < 1 then 1 else 1) :=
  run_event_loop_one_spec (fun n => n) (fun n => n) (fun n => n) (fun n => n)
    (fun n => n) (fun n => n) 1 []

/-- Session-management packet types (the enum is declared in
`session_mgmt_types.h`, outside the excerpt; modelled from the spec §6). -/
inductive SessionMgmtPktType where
  | kConnectReq : SessionMgmtPktType
  | kConnectResp : SessionMgmtPktType
  | kDisconnectReq : SessionMgmtPktType
  | kDisconnectResp : SessionMgmtPktType
  | kFaultDropTxRemote : SessionMgmtPktType
deriving DecidableEq

/-- Predicate `SessionMgmtPkt::is_req` (declared outside the excerpt; modelled from the
spec: the requests are `ConnectReq` and `DisconnectReq`). -/
def SessionMgmtPktType.is_req : SessionMgmtPktType → Bool
  | SessionMgmtPktType.kConnectReq => true
  | SessionMgmtPktType.kDisconnectReq => true
  | _ => false

/-- Function `session_mgmt_pkt_type_req_to_resp` (declared outside the excerpt;
modelled from the request/response pairs of the spec; only applied to requests). -/
def session_mgmt_pkt_type_req_to_resp :
    SessionMgmtPktType → SessionMgmtPktType
  | SessionMgmtPktType.kConnectReq => SessionMgmtPktType.kConnectResp
  | SessionMgmtPktType.kDisconnectReq => SessionMgmtPktType.kDisconnectResp
  | t => t

/-- A session-management packet (modelled from the spec §6: a packet type, an
error kind, and both endpoint descriptors including the shared secret). -/
structure SessionMgmtPkt where
  pkt_type : SessionMgmtPktType
  err_type : Nat
  client : SessionEndpoint
  server : SessionEndpoint

/-- The response packet built by `enqueue_sm_resp` (`rpc_sm_helpers.cc` lines
108-114): a copy of the request in which the packet type is replaced by the
matching response type and the error kind is set. -/
def sm_resp_pkt (req : SessionMgmtPkt) (err_type : Nat) : SessionMgmtPkt :=
  { req with pkt_type := session_mgmt_pkt_type_req_to_resp req.pkt_type,
             err_type := err_type }

/-- Method `Rpc::enqueue_sm_resp` from `rpc_sm_helpers.cc` lines 99-118: build the
response copy and push it onto the management TX list. -/
def enqueue_sm_resp (sm_tx_list : List SessionMgmtPkt)
    (req : SessionMgmtPkt) (err_type : Nat) : List SessionMgmtPkt :=
  sm_tx_list ++ [sm_resp_pkt req err_type]

/-- C8: for every management request packet, the reply built by
`enqueue_sm_resp` differs from the request only in the packet-type field
(changed to the corresponding response type) and the error-type field; both
endpoint descriptors, and with them the shared secret, are echoed
unchanged. -/
theorem enqueue_sm_resp_spec (l : List SessionMgmtPkt)
    (req : SessionMgmtPkt) (e : Nat)
    (hreq : req.pkt_type.is_req = true) :
    enqueue_sm_resp l req e = l ++ [sm_resp_pkt req e] ∧
    (sm_resp_pkt req e).client = req.client ∧
    (sm_resp_pkt req e).server = req.server ∧
    (sm_resp_pkt req e).client.secret = req.client.secret ∧
    (sm_resp_pkt req e).server.secret = req.server.secret ∧
    (sm_resp_pkt req e).err_type = e ∧
    (sm_resp_pkt req e).pkt_type
      = session_mgmt_pkt_type_req_to_resp req.pkt_type ∧
    (req.pkt_type = SessionMgmtPktType.kConnectReq →
      (sm_resp_pkt req e).pkt_type = SessionMgmtPktType.kConnectResp) ∧
    (req.pkt_type = SessionMgmtPktType.kDisconnectReq →
      (sm_resp_pkt req e).pkt_type = SessionMgmtPktType.kDisconnectResp) := by
  refine ⟨rfl, rfl, rfl, rfl, rfl, rfl, rfl, ?_, ?_⟩ <;>
    intro h <;>
    simp [sm_resp_pkt, session_mgmt_pkt_type_req_to_resp, h]

/-- A concrete management request packet used by witnesses. -/
def sample_sm_pkt : SessionMgmtPkt :=
  { pkt_type := SessionMgmtPktType.kConnectReq, err_type := 0,
    client := sample_session.client, server := sample_session.server }

/-- Witness for C8 at a concrete input. -/
theorem enqueue_sm_resp_spec_witness :
    enqueue_sm_resp [] sample_sm_pkt 3 = [] ++ [sm_resp_pkt sample_sm_pkt 3] ∧
    (sm_resp_pkt sample_sm_pkt 3).client = sample_sm_pkt.client ∧
    (sm_resp_pkt sample_sm_pkt 3).server = sample_sm_pkt.server ∧
    (sm_resp_pkt sample_sm_pkt 3).client.secret
      = sample_sm_pkt.client.secret ∧
    (sm_resp_pkt sample_sm_pkt 3).server.secret
      = sample_sm_pkt.server.secret ∧
    (sm_resp_pkt sample_sm_pkt 3).err_type = 3 ∧
    (sm_resp_pkt sample_sm_pkt 3).pkt_type
      = session_mgmt_pkt_type_req_to_resp sample_sm_pkt.pkt_type ∧
    (sample_sm_pkt.pkt_type = SessionMgmtPktType.kConnectReq →
      (sm_resp_pkt sample_sm_pkt 3).pkt_type
        = SessionMgmtPktType.kConnectResp) ∧
    (sample_sm_pkt.pkt_type = SessionMgmtPktType.kDisconnectReq →
      (sm_resp_pkt sample_sm_pkt 3).pkt_type
        = SessionMgmtPktType.kDisconnectResp) :=
  enqueue_sm_resp_spec [] sample_sm_pkt 3 rfl

/-- An underlying allocator id occurring in a buffer list is in `mb_ids`. -/
theorem mem_mb_ids : ∀ (bl : List MsgBuffer) (b : MsgBuffer), b ∈ bl →
    ∀ id, b.buffer_buf = some id → id ∈ mb_ids bl := by
  intro bl
  induction bl with
  | nil => intro b hb; simp at hb
  | cons a l ih =>
    intro b hb id hid
    rcases List.mem_cons.mp hb with hb | hb
    · subst hb
      simp [mb_ids, hid]
    · cases hab : a.buffer_buf with
      | none => simpa [mb_ids, hab] using ih b hb id hid
      | some j =>
        simp only [mb_ids, hab, Finset.mem_insert]
        exact Or.inr (ih b hb id hid)

/-- Method `Rpc::bury_session_st` from `rpc_sm_helpers.cc` lines 63-85: free every
preallocated response MsgBuffer of every slot and null the entry of the session in the
session vector. -/
def bury_session_st (st : RpcState) (s : Session) : RpcState :=
  { st with
    huge_alloc := s.sslot_arr.foldl
      (fun h sl => free_msg_buffer h sl.pre_resp_msgbuf) st.huge_alloc,
    session_vec := st.session_vec.set s.local_session_num none }

/-- C9: burying a session frees the `pre_resp_msgbuf` of each of its
request-window slots, nulls the session-vector entry at its local session
number, and leaves every other entry unchanged; and `create_session` only
ever appends to the session vector, so a nulled index is never reassigned to
a later session. -/
theorem bury_session_st_spec (st : RpcState) (s : Session)
    (hlt : s.local_session_num < st.session_vec.length) :
    (bury_session_st st s).session_vec[s.local_session_num]? = some none ∧
    (∀ j, j ≠ s.local_session_num →
      (bury_session_st st s).session_vec[j]? = st.session_vec[j]?) ∧
    (∀ sl ∈ s.sslot_arr, ∀ id, sl.pre_resp_msgbuf.buffer_buf = some id →
      id ∉ (bury_session_st st s).huge_alloc.live) ∧
    (∀ p ic rh rat rpp j, j < st.session_vec.length →
      (create_session p ic st rh rat rpp).2.session_vec[j]?
        = st.session_vec[j]?) := by
  refine ⟨List.getElem?_set_self hlt, ?_, ?_, ?_⟩
  · intro j hj
    exact List.getElem?_set_ne (fun hc => hj hc.symm)
  · intro sl hsl id hid
    have hfold : (bury_session_st st s).huge_alloc.live
        = st.huge_alloc.live
          \ mb_ids (s.sslot_arr.map (fun sl => sl.pre_resp_msgbuf)) := by
      show (s.sslot_arr.foldl
        (fun h sl => free_msg_buffer h sl.pre_resp_msgbuf)
        st.huge_alloc).live = _
      rw [← List.foldl_map (fun sl : SSlot => sl.pre_resp_msgbuf)
        free_msg_buffer s.sslot_arr st.huge_alloc]
      exact foldl_free_live _ _
    rw [hfold]
    have hidmem : id ∈ mb_ids
        (s.sslot_arr.map (fun sl => sl.pre_resp_msgbuf)) :=
      mem_mb_ids _ sl.pre_resp_msgbuf
        (List.mem_map.mpr ⟨sl, hsl, rfl⟩) id hid
    simp [Finset.mem_sdiff, hidmem]
  · intro p ic rh rat rpp j hj
    rcases create_session_cases p ic st rh rat rpp with heq | ⟨hpre0, heq⟩ |
      ⟨rhost, bufs, hrh, hic, hport, hlen, hself, hany, hlim, hpre, heq⟩
    · rw [heq]
    · rw [heq]
    · rw [heq]
      exact List.getElem?_append_left hj

/-- Witness for C9 at a concrete input. -/
theorem bury_session_st_spec_witness :
    (bury_session_st sample_state
       sample_session).session_vec[sample_session.local_session_num]?
      = some none ∧
    (∀ j, j ≠ sample_session.local_session_num →
      (bury_session_st sample_state sample_session).session_vec[j]?
        = sample_state.session_vec[j]?) ∧
    (∀ sl ∈ sample_session.sslot_arr, ∀ id,
      sl.pre_resp_msgbuf.buffer_buf = some id →
      id ∉ (bury_session_st sample_state
        sample_session).huge_alloc.live) ∧
    (∀ p ic rh rat rpp j, j < sample_state.session_vec.length →
      (create_session p ic sample_state rh rat rpp).2.session_vec[j]?
        = sample_state.session_vec[j]?) :=
  bury_session_st_spec sample_state sample_session
    (by simp [sample_state, sample_session])

/-- Method `Rpc::bury_sslot_rx_msgbuf` from `rpc.h` lines 505-521: free the
RX MsgBuffer of the slot if it used dynamic allocation (marking the underlying buffer
invalid), and null its data pointer in any case. -/
def bury_sslot_rx_msgbuf (h : HugeAlloc) (sl : SSlot) : HugeAlloc × SSlot :=
  match sl.rx_msgbuf.buffer_buf with
  | some id =>
    ({ h with live := h.live.erase id },
     { sl with rx_msgbuf :=
         { sl.rx_msgbuf with buffer_buf := none, buf := none } })
  | none =>
    (h, { sl with rx_msgbuf := { sl.rx_msgbuf with buf := none } })

/-- Method `Rpc::release_respone` from `rpc.h` lines 315-333 (the source spells the
name without the second s): bury the possibly-dynamic response `rx_msgbuf`
and push the slot index onto the free-slot vector of the client session. -/
def release_respone (h : HugeAlloc) (session : Session) (sl : SSlot) :
    HugeAlloc × Session × SSlot :=
  let r := bury_sslot_rx_msgbuf h sl
  (r.1,
   { session with sslot_free_vec := session.sslot_free_vec ++ [sl.index] },
   r.2)

/-- C10: on a client-session slot whose `tx_msgbuf` is null,
`release_respone` pushes the slot index onto the free-slot vector of the
session and invalidates the `rx_msgbuf` of the slot, freeing the backing memory
iff the buffer was dynamically allocated; a non-dynamic (preallocated or
ring-aliasing) buffer leaves the allocator untouched, and the fields
`pre_resp_msgbuf` and `tx_msgbuf` of the slot are not modified. -/
theorem release_respone_spec (h : HugeAlloc) (session : Session) (sl : SSlot)
    (htx : sl.tx_msgbuf = none) (hcl : session.is_client = true) :
    (release_respone h session sl).2.1.sslot_free_vec
      = session.sslot_free_vec ++ [sl.index] ∧
    (release_respone h session sl).2.2.rx_msgbuf.buf = none ∧
    (∀ id, sl.rx_msgbuf.buffer_buf = some id →
      (release_respone h session sl).1.live = h.live.erase id ∧
      id ∉ (release_respone h session sl).1.live ∧
      (release_respone h session sl).2.2.rx_msgbuf.buffer_buf = none) ∧
    (sl.rx_msgbuf.buffer_buf = none →
      (release_respone h session sl).1 = h) ∧
    (release_respone h session sl).2.2.index = sl.index ∧
    (release_respone h session sl).2.2.tx_msgbuf = sl.tx_msgbuf ∧
    (release_respone h session sl).2.2.pre_resp_msgbuf
      = sl.pre_resp_msgbuf := by
  cases hrx : sl.rx_msgbuf.buffer_buf with
  | some id =>
    refine ⟨rfl, ?_, ?_, ?_, ?_, ?_, ?_⟩ <;>
      simp [release_respone, bury_sslot_rx_msgbuf, hrx]
  | none =>
    refine ⟨rfl, ?_, ?_, ?_, ?_, ?_, ?_⟩ <;>
      simp [release_respone, bury_sslot_rx_msgbuf, hrx]

/-- A concrete slot holding a dynamic RX MsgBuffer, used by witnesses. -/
def sample_sslot : SSlot :=
  { index := 1, tx_msgbuf := none, rx_msgbuf := sample_msgbuf,
    pre_resp_msgbuf := mk_invalid_msgbuffer }

/-- Witness for C10 at a concrete input. -/
theorem release_respone_spec_witness :
    (release_respone sample_state.huge_alloc sample_session
      sample_sslot).2.1.sslot_free_vec
      = sample_session.sslot_free_vec ++ [sample_sslot.index] ∧
    (release_respone sample_state.huge_alloc sample_session
      sample_sslot).2.2.rx_msgbuf.buf = none ∧
    (∀ id, sample_sslot.rx_msgbuf.buffer_buf = some id →
      (release_respone sample_state.huge_alloc sample_session
        sample_sslot).1.live = sample_state.huge_alloc.live.erase id ∧
      id ∉ (release_respone sample_state.huge_alloc sample_session
        sample_sslot).1.live ∧
      (release_respone sample_state.huge_alloc sample_session
        sample_sslot).2.2.rx_msgbuf.buffer_buf = none) ∧
    (sample_sslot.rx_msgbuf.buffer_buf = none →
      (release_respone sample_state.huge_alloc sample_session
        sample_sslot).1 = sample_state.huge_alloc) ∧
    (release_respone sample_state.huge_alloc sample_session
      sample_sslot).2.2.index = sample_sslot.index ∧
    (release_respone sample_state.huge_alloc sample_session
      sample_sslot).2.2.tx_msgbuf = sample_sslot.tx_msgbuf ∧
    (release_respone sample_state.huge_alloc sample_session
      sample_sslot).2.2.pre_resp_msgbuf = sample_sslot.pre_resp_msgbuf :=
  release_respone_spec sample_state.huge_alloc sample_session sample_sslot
    rfl rfl

end ERpc
